import Mathlib

/-!
Shallow embedding of the Accounting-Tool backend core: the metadata store
(`app/storage.py`), the schema registry (`app/agents/schemas.py`) and the two
orchestration flows of `AgentService` (`app/services/agent_service.py`).

Modelling conventions:
* JSON values are the inductive `Json` below; Python `dict` payloads obtained
  from `response.json()` are `Json.obj` with duplicate-free key lists.  The
  environment supplies the decoded JSON directly, so response bodies are
  assumed to parse (every claim conditions on a JSON body).
* Machine time (`datetime.now(tz=utc)`) and HTTP outcomes are supplied by an
  explicit environment record; datetimes are epoch seconds as `Int`.
* A Python method that can raise is embedded with an outcome type that
  separates deliberately raised `RuntimeError`s from other escaping exceptions
  (`AttributeError` on `.get` of a non-dict, `sqlite3` errors from the store).
* The SQLite tables are lists of rows plus an autoincrement counter;
  `INSERT OR REPLACE` deletes the rows in conflict on the UNIQUE column and
  appends a fresh row under a new surrogate id.
-/

mutual
/-- JSON values as produced by `response.json()`.  Numbers are modelled as
`Int` (the payload fields the code inspects are identifiers and epoch
timestamps). -/
inductive Json where
  | null
  | bool (b : Bool)
  | num (n : Int)
  | str (s : String)
  | arr (elems : JsonList)
  | obj (fields : JsonFields)
deriving DecidableEq, Repr

/-- A JSON array's elements. -/
inductive JsonList where
  | nil
  | cons (hd : Json) (tl : JsonList)
deriving DecidableEq, Repr

/-- A JSON object's key/value fields, in insertion order. -/
inductive JsonFields where
  | nil
  | cons (key : String) (val : Json) (tl : JsonFields)
deriving DecidableEq, Repr
end

/-- Build a `JsonList` from a `List`. -/
def JsonList.ofList : List Json → JsonList
  | [] => .nil
  | x :: xs => .cons x (ofList xs)

/-- Build `JsonFields` from an association list. -/
def JsonFields.ofList : List (String × Json) → JsonFields
  | [] => .nil
  | (k, v) :: xs => .cons k v (ofList xs)

/-- JSON array literal from a `List`. -/
def Json.arrL (xs : List Json) : Json := .arr (.ofList xs)

/-- JSON object literal from an association list. -/
def Json.objL (fs : List (String × Json)) : Json := .obj (.ofList fs)

/-- First-match lookup of a key in a JSON object's fields (Python dicts
decoded from JSON have unique keys). -/
def JsonFields.lookup : JsonFields → String → Option Json
  | .nil, _ => none
  | .cons k v tl, key => if k = key then some v else tl.lookup key

/-- Emptiness of a JSON array. -/
def JsonList.isEmpty : JsonList → Bool
  | .nil => true
  | .cons _ _ => false

/-- Emptiness of a JSON object. -/
def JsonFields.isEmpty : JsonFields → Bool
  | .nil => true
  | .cons _ _ _ => false

/-- Python truthiness of a decoded JSON value (`if not x`). -/
def Json.pyTruthy : Json → Bool
  | .null => false
  | .bool b => b
  | .num n => n != 0
  | .str s => s != ""
  | .arr elems => !elems.isEmpty
  | .obj fields => !fields.isEmpty

/-- Truthiness of `dict.get(key)`: Python `None` (absent key) is falsy. -/
def pyTruthyOpt : Option Json → Bool
  | none => false
  | some j => j.pyTruthy

/-- `payload.get(key)` on a decoded JSON value: an `AttributeError` when the
value is not a dict, otherwise the looked-up field or `None`. -/
def Json.pyGet : Json → String → Except String (Option Json)
  | .obj fields, key => .ok (fields.lookup key)
  | _, _ => .error "AttributeError"

/-- `isinstance(x, (int, float))` on a decoded JSON value.  Python `bool` is a
subclass of `int`, so JSON booleans pass the check. -/
def Json.isIntOrFloat : Json → Bool
  | .num _ => true
  | .bool _ => true
  | _ => false

/-- The numeric value `datetime.fromtimestamp` receives from a decoded JSON
value that passed `isIntOrFloat` (`True` counts as `1`). -/
def Json.toEpochInt : Json → Int
  | .num n => n
  | .bool b => if b then 1 else 0
  | _ => 0

/-- Python `s or default` for an optional string (`None` and `""` are falsy). -/
def pyStrOr (o : Option String) (d : String) : String :=
  match o with
  | none => d
  | some s => if s = "" then d else s

/-- Python truthiness of `Option String` (`if not self._settings.openai_api_key`). -/
def pyOptStrTruthy : Option String → Bool
  | none => false
  | some s => s != ""

/-- Python truthiness of an optional string-to-string dict
(`if request.metadata`). -/
def pyOptDictTruthy : Option (List (String × String)) → Bool
  | none => false
  | some m => !m.isEmpty

/-- Python slice `s[:500]` (first 500 code points). -/
def take500 (s : String) : String := ⟨s.data.take 500⟩

/-- `httpx.Response.is_success`: `raise_for_status` passes iff 2xx. -/
def is2xx (status : Nat) : Bool := 200 ≤ status && status < 300

/-! ## Metadata store (`app/storage.py`) -/

/-- `UploadRecord` dataclass.  Identifier and filename fields hold the raw
decoded JSON values the service passes (the dataclass does not enforce its
type annotations); `uploaded_at` is an epoch-second instant (the source
serializes it with `isoformat()`, a formatting detail the claims do not
touch). -/
structure UploadRecord where
  file_id : Json
  filename : Json
  provider : Option String
  content_type : String
  bytes : Nat
  uploaded_at : Int
deriving DecidableEq, Repr

/-- `RunRecord` dataclass.  `schema_profile` is the requested profile string
(the only caller always passes `request.response_schema`); `metadata` is the
caller-supplied string map (stored as compact JSON text, a formatting detail
the claims do not touch). -/
structure RunRecord where
  run_id : Json
  thread_id : Json
  assistant_id : Json
  status : Json
  schema_profile : String
  metadata : List (String × String)
  started_at : Int
deriving DecidableEq, Repr

/-- A row of the `uploads` table: autoincrement surrogate id plus the record. -/
structure UploadRow where
  rowid : Nat
  record : UploadRecord
deriving DecidableEq, Repr

/-- A row of the `runs` table. -/
structure RunRow where
  rowid : Nat
  record : RunRecord
deriving DecidableEq, Repr

/-- State of the SQLite database: both tables and their autoincrement
counters. -/
structure StoreState where
  uploads : List UploadRow
  uploadsNextId : Nat
  runs : List RunRow
  runsNextId : Nat
deriving DecidableEq, Repr

/-- The freshly initialised store (`CREATE TABLE IF NOT EXISTS`, no rows). -/
def StoreState.empty : StoreState := ⟨[], 1, [], 1⟩

/-- `MetadataStore.log_upload`: `INSERT OR REPLACE INTO uploads` keyed by the
UNIQUE column `file_id` — rows in conflict are deleted and the new row is
appended under a fresh surrogate id. -/
def log_upload (st : StoreState) (r : UploadRecord) : StoreState :=
  { st with
    uploads := st.uploads.filter (fun row => row.record.file_id ≠ r.file_id)
      ++ [⟨st.uploadsNextId, r⟩]
    uploadsNextId := st.uploadsNextId + 1 }

/-- `MetadataStore.log_run`: `INSERT OR REPLACE INTO runs` keyed by the UNIQUE
column `run_id`. -/
def log_run (st : StoreState) (r : RunRecord) : StoreState :=
  { st with
    runs := st.runs.filter (fun row => row.record.run_id ≠ r.run_id)
      ++ [⟨st.runsNextId, r⟩]
    runsNextId := st.runsNextId + 1 }

/-- `MetadataStore.update_run_status`:
`UPDATE runs SET status = ? WHERE run_id = ?` — sets the status of every row
whose `run_id` equals the given text value, affecting zero rows when none
matches. -/
def update_run_status (st : StoreState) (run_id status : String) : StoreState :=
  { st with
    runs := st.runs.map (fun row =>
      if row.record.run_id = Json.str run_id then
        { row with record := { row.record with status := Json.str status } }
      else row) }

/-! ## Settings, HTTP environment, errors (`app/config.py`, service plumbing) -/

/-- The settings fields the service reads. -/
structure Settings where
  openai_api_key : Option String
  openai_base_url : String
  openai_assistant_id : Option String
deriving DecidableEq, Repr

/-- An HTTP exchange's visible outcome: status code, body text, and the
body's decoded JSON. -/
structure HttpResponse where
  status : Nat
  body : String
  json : Json
deriving DecidableEq, Repr

/-- Either a response or an `httpx.RequestError` (DNS, refused, timeout). -/
inductive HttpOutcome where
  | response (r : HttpResponse)
  | requestError (msg : String)
deriving DecidableEq, Repr

/-- The distinct `raise RuntimeError(...)` sites of `agent_service.py`.
Status errors carry the already-truncated (≤ 500 code point) body text. -/
inductive AgentError where
  | apiKeyMissing
  | assistantIdMissing
  | filesApiStatus (status : Nat) (body : String)
  | filesApiConnect (msg : String)
  | filesMissingId
  | threadsMissingId
  | agentsApiStatus (status : Nat) (body : String)
  | agentsApiConnect (msg : String)
  | runsMissingId
deriving DecidableEq, Repr

/-- The `RuntimeError` message of each raise site, exactly as in the source. -/
def AgentError.message : AgentError → String
  | .apiKeyMissing => "OPENAI_API_KEY is not configured."
  | .assistantIdMissing => "OPENAI_ASSISTANT_ID is not configured."
  | .filesApiStatus status body =>
      "OpenAI Files API error (" ++ toString status ++ "): " ++ body
  | .filesApiConnect msg => "Failed to reach OpenAI Files API: " ++ msg
  | .filesMissingId => "OpenAI Files API response did not include a file id."
  | .threadsMissingId => "OpenAI Threads API response did not include a thread id."
  | .agentsApiStatus status body =>
      "OpenAI Agents API error (" ++ toString status ++ "): " ++ body
  | .agentsApiConnect msg => "Failed to reach OpenAI Agents API: " ++ msg
  | .runsMissingId => "OpenAI Agents API response did not include a run id."

/-- Outcome of an embedded Python coroutine: a returned value, a deliberately
raised `RuntimeError`, or another exception escaping (crash). -/
inductive PyOutcome (α : Type) where
  | ok (value : α)
  | error (e : AgentError)
  | crash (msg : String)
deriving DecidableEq, Repr

/-- `AgentService._build_headers`: raises when the API key is unset or empty,
otherwise returns the auth headers. -/
def build_headers (s : Settings) : Except AgentError (List (String × String)) :=
  if pyOptStrTruthy s.openai_api_key then
    .ok [("Authorization", "Bearer " ++ s.openai_api_key.getD ""),
         ("OpenAI-Beta", "assistants=v2")]
  else .error .apiKeyMissing

/-- An outbound HTTP request issued by the service, in issue order.  The files
request is the multipart POST `/files` (its constant `purpose=assistants` form
field is implicit); the threads request is POST `/threads`; the runs request
is POST `/threads/{thread_id}/runs` with its JSON body. -/
inductive Request where
  | files (filename : String) (content : List Nat) (contentType : String)
  | threads (body : Json)
  | runs (threadId : Json) (body : List (String × Json))
deriving DecidableEq, Repr

/-! ## Schema registry (`app/agents/schemas.py`) -/

/-- The `label`/`total` item schema, repeated verbatim in the source for the
`by_category`, `by_vendor` and `by_month` arrays. -/
def expenseItemSchema : Json :=
  Json.objL
    [("type", .str "object"),
     ("additionalProperties", .bool false),
     ("required", Json.arrL [.str "label", .str "total"]),
     ("properties", Json.objL
       [("label", Json.objL [("type", .str "string")]),
        ("total", Json.objL [("type", .str "number")])])]

/-- `FINANCIAL_REPORT_SCHEMA`: the fixed three-section JSON Schema. -/
def FINANCIAL_REPORT_SCHEMA : Json :=
  Json.objL
    [("name", .str "financial_reports"),
     ("schema", Json.objL
       [("$schema", .str "http://json-schema.org/draft-07/schema#"),
        ("type", .str "object"),
        ("additionalProperties", .bool false),
        ("required", Json.arrL
          [.str "income_statement", .str "cash_flow", .str "expense_breakdown"]),
        ("properties", Json.objL
          [("income_statement", Json.objL
            [("type", .str "object"),
             ("additionalProperties", .bool false),
             ("required", Json.arrL [.str "periods"]),
             ("properties", Json.objL
               [("periods", Json.objL
                 [("type", .str "array"),
                  ("minItems", .num 1),
                  ("items", Json.objL
                    [("type", .str "object"),
                     ("additionalProperties", .bool false),
                     ("required", Json.arrL
                       [.str "label", .str "revenue", .str "cogs",
                        .str "gross_profit", .str "operating_expenses",
                        .str "operating_income", .str "other_net",
                        .str "taxes", .str "net_income", .str "margins"]),
                     ("properties", Json.objL
                       [("label", Json.objL [("type", .str "string")]),
                        ("revenue", Json.objL [("type", .str "number")]),
                        ("cogs", Json.objL [("type", .str "number")]),
                        ("gross_profit", Json.objL [("type", .str "number")]),
                        ("operating_expenses", Json.objL [("type", .str "number")]),
                        ("operating_income", Json.objL [("type", .str "number")]),
                        ("other_net", Json.objL [("type", .str "number")]),
                        ("taxes", Json.objL [("type", .str "number")]),
                        ("net_income", Json.objL [("type", .str "number")]),
                        ("margins", Json.objL
                          [("type", .str "object"),
                           ("additionalProperties", .bool false),
                           ("required", Json.arrL
                             [.str "gross", .str "operating", .str "net"]),
                           ("properties", Json.objL
                             [("gross", Json.objL [("type", .str "number")]),
                              ("operating", Json.objL [("type", .str "number")]),
                              ("net", Json.objL [("type", .str "number")])])])])])])])]),
           ("cash_flow", Json.objL
             [("type", .str "object"),
              ("additionalProperties", .bool false),
              ("required", Json.arrL
                [.str "operating", .str "investing", .str "financing",
                 .str "net_change"]),
              ("properties", Json.objL
                [("operating", Json.objL [("type", .str "number")]),
                 ("investing", Json.objL [("type", .str "number")]),
                 ("financing", Json.objL [("type", .str "number")]),
                 ("net_change", Json.objL [("type", .str "number")])])]),
           ("expense_breakdown", Json.objL
             [("type", .str "object"),
              ("additionalProperties", .bool false),
              ("required", Json.arrL
                [.str "by_category", .str "by_vendor", .str "by_month"]),
              ("properties", Json.objL
                [("by_category", Json.objL
                  [("type", .str "array"), ("items", expenseItemSchema)]),
                 ("by_vendor", Json.objL
                  [("type", .str "array"), ("items", expenseItemSchema)]),
                 ("by_month", Json.objL
                  [("type", .str "array"), ("items", expenseItemSchema)])])])])]),
     ("strict", .bool true)]

/-- `SCHEMA_PROFILES`: the registry of named `response_format` payloads. -/
def SCHEMA_PROFILES : List (String × Json) :=
  [("income_cashflow_expense",
    Json.objL
      [("type", .str "json_schema"),
       ("json_schema", FINANCIAL_REPORT_SCHEMA),
       ("strict", .bool true)])]

/-- `get_response_format`: `SCHEMA_PROFILES.get(profile)`. -/
def get_response_format (profile : String) : Option Json :=
  SCHEMA_PROFILES.lookup profile

/-! ## Upload orchestration (`AgentService.upload_source`) -/

/-- The caller-supplied `UploadFile`: `filename` and `content_type` may be
`None`, and `read()` yields the full byte content. -/
structure UploadFileIn where
  filename : Option String
  content_type : Option String
  content : List Nat
deriving DecidableEq, Repr

/-- The normalized dict `upload_source` returns (`uploaded_at` as epoch
seconds).  `file_id` and `filename` hold raw decoded JSON values. -/
structure UploadResult where
  file_id : Json
  filename : Json
  provider : Option String
  content_type : String
  bytes : Nat
  uploaded_at : Int
deriving DecidableEq, Repr

/-- Environment of one `upload_source` call: what POST `/files` returns, the
current UTC time, and whether the store's SQLite write raises. -/
structure UploadEnv where
  filesResponse : HttpOutcome
  now : Int
  storeWriteFails : Bool
deriving DecidableEq, Repr

/-- Observable effect of one `upload_source` call: the outcome, the final
store state, and the outbound HTTP requests issued, in order. -/
structure UploadOut where
  result : PyOutcome UploadResult
  store : Option StoreState
  requests : List Request
deriving DecidableEq, Repr

/-- `AgentService.upload_source`, line by line: headers (credential check)
first, then the multipart POST `/files`; non-2xx becomes a gateway
`RuntimeError` with the truncated body; a request error becomes a
connectivity `RuntimeError`; then `response.json().get("id")` (an
`AttributeError` crash on a non-dict body), the truthiness check on the id,
result construction, and — only when a store is attached and the id is
truthy — the `log_upload` write, whose exception, if any, propagates. -/
def upload_source (settings : Settings) (store : Option StoreState)
    (env : UploadEnv) (file : UploadFileIn) (provider : Option String) :
    UploadOut :=
  match build_headers settings with
  | .error e => ⟨.error e, store, []⟩
  | .ok _ =>
    let contents := file.content
    let filename := pyStrOr file.filename "upload"
    let content_type := pyStrOr file.content_type "application/octet-stream"
    let req := Request.files filename contents content_type
    match env.filesResponse with
    | .requestError msg => ⟨.error (.filesApiConnect msg), store, [req]⟩
    | .response r =>
      if is2xx r.status = false then
        ⟨.error (.filesApiStatus r.status (take500 r.body)), store, [req]⟩
      else
        match r.json with
        | .obj fields =>
          if pyTruthyOpt (fields.lookup "id") = false then
            ⟨.error .filesMissingId, store, [req]⟩
          else
            let file_id := (fields.lookup "id").getD .null
            let result : UploadResult :=
              { file_id := file_id
                filename := (fields.lookup "filename").getD (.str filename)
                provider := provider
                content_type := content_type
                bytes := contents.length
                uploaded_at := env.now }
            match store with
            | none => ⟨.ok result, none, [req]⟩
            | some st =>
              if env.storeWriteFails then ⟨.crash "sqlite3.Error", some st, [req]⟩
              else
                ⟨.ok result,
                 some (log_upload st
                   ⟨file_id, result.filename, provider, content_type,
                    contents.length, env.now⟩),
                 [req]⟩
        | _ => ⟨.crash "AttributeError", store, [req]⟩

/-! ## Run orchestration (`AgentService.start_agent_run`) -/

/-- `AgentRunRequest` (validated upstream: `file_ids` non-empty,
`response_schema` one of `"default" | "income_cashflow_expense"`). -/
structure AgentRunRequest where
  file_ids : List String
  instructions : String
  response_schema : String
  metadata : Option (List (String × String))
deriving DecidableEq, Repr

/-- The fixed text of the seeded user message. -/
def attachmentMessageText : String :=
  "Please review the attached spreadsheets. Follow the run instructions to generate the required financial summaries."

/-- The fixed default `instructions` sent when the caller's are blank. -/
def defaultRunInstructions : String :=
  "Read the uploaded spreadsheets and produce the structured JSON outputs defined by the schema."

/-- The single seeded user message with one attachment per file id, in
order. -/
def messagePayload (file_ids : List String) : Json :=
  Json.objL
    [("role", .str "user"),
     ("content", Json.arrL
       [Json.objL [("type", .str "text"), ("text", .str attachmentMessageText)]]),
     ("attachments", Json.arrL
       (file_ids.map (fun fid => Json.objL [("file_id", .str fid)])))]

/-- Body of POST `/threads`: `{"messages": [message_payload]}`. -/
def threadsRequestBody (file_ids : List String) : Json :=
  Json.objL [("messages", Json.arrL [messagePayload file_ids])]

/-- The `run_body` dict of `start_agent_run` lines 114–132: `assistant_id`
always; `metadata` only when truthy; `response_format` from the registry when
truthy; `instructions` from the caller when the stripped text is non-empty,
else the fixed default. -/
def buildRunBody (assistant_id : String) (req : AgentRunRequest) :
    List (String × Json) :=
  let b : List (String × Json) := [("assistant_id", .str assistant_id)]
  let b := if pyOptDictTruthy req.metadata then
      b ++ [("metadata",
        Json.objL ((req.metadata.getD []).map (fun p => (p.1, Json.str p.2))))]
    else b
  let b := match get_response_format req.response_schema with
    | some rf => if rf.pyTruthy then b ++ [("response_format", rf)] else b
    | none => b
  let b := if req.instructions.trim ≠ "" then
      b ++ [("instructions", .str req.instructions.trim)]
    else b
  if (b.lookup "instructions").isSome then b
  else b ++ [("instructions", .str defaultRunInstructions)]

/-- The normalized dict `start_agent_run` returns. -/
structure RunResult where
  run_id : Json
  status : Json
  thread_id : Json
  started_at : Int
  dashboard_url : Json
  assistant_id : Json
  requested_schema : String
  metadata : List (String × String)
deriving DecidableEq, Repr

/-- Environment of one `start_agent_run` call: outcomes of POST `/threads`
and POST `/threads/{id}/runs`, the current UTC time, and whether the store's
SQLite write raises. -/
structure RunEnv where
  threadsResponse : HttpOutcome
  runsResponse : HttpOutcome
  now : Int
  storeWriteFails : Bool
deriving DecidableEq, Repr

/-- Observable effect of one `start_agent_run` call. -/
structure RunOut where
  result : PyOutcome RunResult
  store : Option StoreState
  requests : List Request
deriving DecidableEq, Repr

/-- `AgentService.start_agent_run`, line by line: headers (credential check)
and assistant-id check before any request; POST `/threads` with the seeded
message; `raise_for_status` and the thread-id extraction (both gateway
errors carry the "Agents API" message, since one try/except spans both
posts); the `run_body` construction; POST `/threads/{id}/runs`;
`raise_for_status`; run-id extraction and truthiness check; `status`,
`created_at` (numeric epoch or current time), `dashboard_url`,
`assistant_id` extraction; and — only when a store is attached and the run
id is truthy — the `log_run` write, whose exception, if any, propagates. -/
def start_agent_run (settings : Settings) (store : Option StoreState)
    (env : RunEnv) (req : AgentRunRequest) : RunOut :=
  match build_headers settings with
  | .error e => ⟨.error e, store, []⟩
  | .ok _ =>
    match settings.openai_assistant_id with
    | none => ⟨.error .assistantIdMissing, store, []⟩
    | some assistant_id =>
      if assistant_id = "" then ⟨.error .assistantIdMissing, store, []⟩
      else
        let treq := Request.threads (threadsRequestBody req.file_ids)
        match env.threadsResponse with
        | .requestError msg => ⟨.error (.agentsApiConnect msg), store, [treq]⟩
        | .response tr =>
          if is2xx tr.status = false then
            ⟨.error (.agentsApiStatus tr.status (take500 tr.body)), store, [treq]⟩
          else
            match tr.json with
            | .obj tfields =>
              if pyTruthyOpt (tfields.lookup "id") = false then
                ⟨.error .threadsMissingId, store, [treq]⟩
              else
                let thread_id := (tfields.lookup "id").getD .null
                let run_body := buildRunBody assistant_id req
                let rreq := Request.runs thread_id run_body
                match env.runsResponse with
                | .requestError msg =>
                    ⟨.error (.agentsApiConnect msg), store, [treq, rreq]⟩
                | .response rr =>
                  if is2xx rr.status = false then
                    ⟨.error (.agentsApiStatus rr.status (take500 rr.body)),
                     store, [treq, rreq]⟩
                  else
                    match rr.json with
                    | .obj rfields =>
                      if pyTruthyOpt (rfields.lookup "id") = false then
                        ⟨.error .runsMissingId, store, [treq, rreq]⟩
                      else
                        let run_id := (rfields.lookup "id").getD .null
                        let status := (rfields.lookup "status").getD (.str "queued")
                        let started_at :=
                          match rfields.lookup "created_at" with
                          | some c => if c.isIntOrFloat then c.toEpochInt else env.now
                          | none => env.now
                        let result : RunResult :=
                          { run_id := run_id
                            status := status
                            thread_id := thread_id
                            started_at := started_at
                            dashboard_url := (rfields.lookup "dashboard_url").getD .null
                            assistant_id :=
                              (rfields.lookup "assistant_id").getD (.str assistant_id)
                            requested_schema := req.response_schema
                            metadata := req.metadata.getD [] }
                        match store with
                        | none => ⟨.ok result, none, [treq, rreq]⟩
                        | some st =>
                          if env.storeWriteFails then
                            ⟨.crash "sqlite3.Error", some st, [treq, rreq]⟩
                          else
                            ⟨.ok result,
                             some (log_run st
                               ⟨run_id, thread_id, result.assistant_id, status,
                                req.response_schema, req.metadata.getD [],
                                started_at⟩),
                             [treq, rreq]⟩
                    | _ => ⟨.crash "AttributeError", store, [treq, rreq]⟩
            | _ => ⟨.crash "AttributeError", store, [treq]⟩

/-! ## Store invariants and frame properties -/

/-- Uploads-table uniqueness: no two rows share a `file_id`. -/
def uploadsUnique (st : StoreState) : Prop :=
  st.uploads.Pairwise (fun a b => a.record.file_id ≠ b.record.file_id)

/-- Runs-table uniqueness: no two rows share a `run_id`. -/
def runsUnique (st : StoreState) : Prop :=
  st.runs.Pairwise (fun a b => a.record.run_id ≠ b.record.run_id)

/-- Mapping a pointwise-identity function over a list of run rows is the
identity. -/
theorem map_eq_self_of_forall {f : RunRow → RunRow} :
    ∀ l : List RunRow, (∀ row ∈ l, f row = row) → l.map f = l := by
  intro l
  induction l with
  | nil => intro _; rfl
  | cons hd tl ih =>
    intro h
    simp only [List.map_cons]
    rw [h hd (by simp), ih (fun row hr => h row (by simp [hr]))]

/-- C9: `updateRunStatus` is a pure point-write: the uploads table and both
autoincrement counters are untouched; row for row, a run row whose `run_id`
matches gets exactly its `status` column replaced and any other row is
unchanged; and when no row matches, the entire store state is unchanged. -/
theorem c9_update_run_status_frame (st : StoreState) (run_id status : String) :
    (update_run_status st run_id status).uploads = st.uploads ∧
    (update_run_status st run_id status).uploadsNextId = st.uploadsNextId ∧
    (update_run_status st run_id status).runsNextId = st.runsNextId ∧
    List.Forall₂
      (fun new old =>
        new.rowid = old.rowid ∧
        (old.record.run_id = Json.str run_id →
          new = ⟨old.rowid, { old.record with status := Json.str status }⟩) ∧
        (old.record.run_id ≠ Json.str run_id → new = old))
      (update_run_status st run_id status).runs st.runs ∧
    ((∀ row ∈ st.runs, row.record.run_id ≠ Json.str run_id) →
      update_run_status st run_id status = st) := by
  refine ⟨rfl, rfl, rfl, ?_, ?_⟩
  · simp only [update_run_status]
    induction st.runs with
    | nil => exact .nil
    | cons hd tl ih =>
      simp only [List.map_cons]
      refine .cons ⟨?_, ?_, ?_⟩ ih
      · split <;> rfl
      · intro h; simp only [if_pos h]
      · intro h; simp only [if_neg h]
  · intro hn
    show { st with runs := st.runs.map _ } = st
    rw [map_eq_self_of_forall st.runs (fun row hr => if_neg (hn row hr))]

/-- C9 witness: concrete store with one non-matching run row. -/
theorem c9_update_run_status_frame_witness :
    update_run_status
        ⟨[], 1,
         [⟨1, ⟨.str "run_1", .str "thread_1", .str "a", .str "queued", "p", [], 5⟩⟩],
         2⟩
        "run_missing" "done" =
      ⟨[], 1,
       [⟨1, ⟨.str "run_1", .str "thread_1", .str "a", .str "queued", "p", [], 5⟩⟩],
       2⟩ :=
  (c9_update_run_status_frame _ "run_missing" "done").2.2.2.2 (by decide)

/-- Filtering for a key among upload rows just filtered to exclude it yields
nothing. -/
theorem filter_eq_after_ne_uploads (c : Json) (l : List UploadRow) :
    (l.filter (fun row => row.record.file_id ≠ c)).filter
      (fun row => row.record.file_id = c) = [] := by
  rw [List.filter_filter, List.filter_eq_nil_iff]
  intro a _
  by_cases h : a.record.file_id = c <;> simp [h]

/-- Filtering for a key among run rows just filtered to exclude it yields
nothing. -/
theorem filter_eq_after_ne_runs (c : Json) (l : List RunRow) :
    (l.filter (fun row => row.record.run_id ≠ c)).filter
      (fun row => row.record.run_id = c) = [] := by
  rw [List.filter_filter, List.filter_eq_nil_iff]
  intro a _
  by_cases h : a.record.run_id = c <;> simp [h]

/-- C8: `INSERT OR REPLACE` semantics — two `logUpload` calls with the same
`file_id` (resp. `logRun` calls with the same `run_id`) leave exactly one row
for that id, carrying the second call's field values; and per-table key
uniqueness is preserved by every store operation. -/
theorem c8_replace_semantics_and_uniqueness :
    (∀ (st : StoreState) (r1 r2 : UploadRecord), r1.file_id = r2.file_id →
      (log_upload (log_upload st r1) r2).uploads.filter
          (fun row => row.record.file_id = r2.file_id) =
        [⟨st.uploadsNextId + 1, r2⟩]) ∧
    (∀ (st : StoreState) (r1 r2 : RunRecord), r1.run_id = r2.run_id →
      (log_run (log_run st r1) r2).runs.filter
          (fun row => row.record.run_id = r2.run_id) =
        [⟨st.runsNextId + 1, r2⟩]) ∧
    (∀ st r, uploadsUnique st → uploadsUnique (log_upload st r)) ∧
    (∀ st r, runsUnique st → runsUnique (log_upload st r)) ∧
    (∀ st r, uploadsUnique st → uploadsUnique (log_run st r)) ∧
    (∀ st r, runsUnique st → runsUnique (log_run st r)) ∧
    (∀ st i s, uploadsUnique st → uploadsUnique (update_run_status st i s)) ∧
    (∀ st i s, runsUnique st → runsUnique (update_run_status st i s)) := by
  refine ⟨?_, ?_, ?_, ?_, ?_, ?_, ?_, ?_⟩
  · intro st r1 r2 _
    simp only [log_upload, List.filter_append, filter_eq_after_ne_uploads]
    simp [List.filter]
  · intro st r1 r2 _
    simp only [log_run, List.filter_append, filter_eq_after_ne_runs]
    simp [List.filter]
  · intro st r h
    unfold uploadsUnique log_upload at *
    rw [List.pairwise_append]
    refine ⟨List.Pairwise.sublist (List.filter_sublist _) h,
      List.pairwise_singleton .., ?_⟩
    intro a ha b hb
    rw [List.mem_singleton] at hb
    subst hb
    have := (List.mem_filter.mp ha).2
    simpa using this
  · intro st r h
    exact h
  · intro st r h
    exact h
  · intro st r h
    unfold runsUnique log_run at *
    rw [List.pairwise_append]
    refine ⟨List.Pairwise.sublist (List.filter_sublist _) h,
      List.pairwise_singleton .., ?_⟩
    intro a ha b hb
    rw [List.mem_singleton] at hb
    subst hb
    have := (List.mem_filter.mp ha).2
    simpa using this
  · intro st i s h
    exact h
  · intro st i s h
    unfold runsUnique update_run_status at *
    rw [List.pairwise_map]
    refine h.imp ?_
    intro a b hab
    have ha : ∀ row : RunRow,
        ((if row.record.run_id = Json.str i then
            { row with record := { row.record with status := Json.str s } }
          else row) : RunRow).record.run_id = row.record.run_id := by
      intro row; split <;> rfl
    intro he
    exact hab (by rw [← ha a, ← ha b]; exact he)

/-- First concrete record for the C8 witness. -/
def w8r1 : UploadRecord := ⟨.str "file_abc", .str "a.csv", none, "text/csv", 1, 10⟩

/-- Second concrete record for the C8 witness, same `file_id`. -/
def w8r2 : UploadRecord := ⟨.str "file_abc", .str "b.csv", some "p", "text/csv", 2, 20⟩

/-- C8 witness: a concrete double `logUpload` with the same id, and
uniqueness preservation at a concrete store. -/
theorem c8_replace_semantics_and_uniqueness_witness :
    (log_upload (log_upload StoreState.empty w8r1) w8r2).uploads.filter
      (fun row => row.record.file_id = w8r2.file_id) = [⟨2, w8r2⟩] ∧
    uploadsUnique (log_upload StoreState.empty w8r1) :=
  ⟨c8_replace_semantics_and_uniqueness.1 StoreState.empty w8r1 w8r2 rfl,
   c8_replace_semantics_and_uniqueness.2.2.1 StoreState.empty w8r1
     List.Pairwise.nil⟩

/-! ## Concrete fixtures shared by witnesses and counterexamples -/

/-- Fully configured settings. -/
def goodSettings : Settings := ⟨some "k", "https://api.openai.com/v1", some "asst_1"⟩

/-- Settings with no API credential. -/
def noKeySettings : Settings := ⟨none, "https://api.openai.com/v1", none⟩

/-- A concrete four-byte CSV upload. -/
def wFile : UploadFileIn := ⟨some "q1.csv", some "text/csv", [65, 66, 67, 68]⟩

/-- A successful Files API response body. -/
def okFilesJson : Json := Json.objL [("id", .str "file_abc"), ("filename", .str "q1.csv")]

/-- Environment in which POST `/files` succeeds. -/
def okFilesEnv : UploadEnv := ⟨.response ⟨200, "ok", okFilesJson⟩, 100, false⟩

/-- A successful Threads API response. -/
def okThreadsResp : HttpOutcome := .response ⟨200, "", Json.objL [("id", .str "thread_1")]⟩

/-- A successful Runs API response. -/
def okRunsResp : HttpOutcome :=
  .response ⟨200, "",
    Json.objL [("id", .str "run_1"), ("status", .str "queued"),
               ("created_at", .num 1700000000)]⟩

/-- Environment in which both posts of `start_agent_run` succeed. -/
def okRunEnv : RunEnv := ⟨okThreadsResp, okRunsResp, 55, false⟩

/-- A concrete run request with blank instructions and the default profile. -/
def wReq : AgentRunRequest := ⟨["file_abc"], "", "income_cashflow_expense", none⟩

/-! ## C2: unconfigured credential -/

/-- C2: uploading without a configured API credential fails with the
configuration error and issues no outbound HTTP request at all. -/
theorem c2_upload_unconfigured_credential (settings : Settings)
    (store : Option StoreState) (env : UploadEnv) (file : UploadFileIn)
    (provider : Option String)
    (h : pyOptStrTruthy settings.openai_api_key = false) :
    (upload_source settings store env file provider).result =
      .error .apiKeyMissing ∧
    (upload_source settings store env file provider).requests = [] ∧
    AgentError.apiKeyMissing.message = "OPENAI_API_KEY is not configured." := by
  refine ⟨?_, ?_, rfl⟩ <;> simp [upload_source, build_headers, h]

/-- C2 witness: concrete unconfigured settings. -/
theorem c2_upload_unconfigured_credential_witness :
    (upload_source noKeySettings none okFilesEnv wFile none).result =
      .error .apiKeyMissing ∧
    (upload_source noKeySettings none okFilesEnv wFile none).requests = [] :=
  ⟨(c2_upload_unconfigured_credential noKeySettings none okFilesEnv wFile none
      rfl).1,
   (c2_upload_unconfigured_credential noKeySettings none okFilesEnv wFile none
      rfl).2.1⟩

/-! ## Success-path shape lemmas -/

/-- On the success path (credential set, 2xx object body with truthy id),
`upload_source` reduces to its explicit result and store effect. -/
theorem upload_source_success_shape (settings : Settings)
    (store : Option StoreState) (env : UploadEnv) (file : UploadFileIn)
    (provider : Option String) (r : HttpResponse) (fields : JsonFields)
    (hkey : pyOptStrTruthy settings.openai_api_key = true)
    (hresp : env.filesResponse = .response r)
    (h2xx : is2xx r.status = true)
    (hjson : r.json = .obj fields)
    (hid : pyTruthyOpt (fields.lookup "id") = true) :
    upload_source settings store env file provider =
      (let filename := pyStrOr file.filename "upload"
       let content_type := pyStrOr file.content_type "application/octet-stream"
       let req := Request.files filename file.content content_type
       let result : UploadResult :=
         { file_id := (fields.lookup "id").getD .null
           filename := (fields.lookup "filename").getD (.str filename)
           provider := provider
           content_type := content_type
           bytes := file.content.length
           uploaded_at := env.now }
       match store with
       | none => ⟨.ok result, none, [req]⟩
       | some st =>
         if env.storeWriteFails then ⟨.crash "sqlite3.Error", some st, [req]⟩
         else
           ⟨.ok result,
            some (log_upload st
              ⟨result.file_id, result.filename, provider, content_type,
               file.content.length, env.now⟩),
            [req]⟩) := by
  unfold upload_source
  simp only [build_headers, hkey, if_true, hresp, hjson, h2xx, hid]
  rfl

/-- On the success path (credential and assistant set, both posts 2xx with
object bodies and truthy ids), `start_agent_run` reduces to its explicit
result and store effect. -/
theorem start_agent_run_success_shape (settings : Settings)
    (store : Option StoreState) (env : RunEnv) (req : AgentRunRequest)
    (assistant_id : String) (tr rr : HttpResponse)
    (tfields rfields : JsonFields)
    (hkey : pyOptStrTruthy settings.openai_api_key = true)
    (haid : settings.openai_assistant_id = some assistant_id)
    (haid2 : (assistant_id = "") = False)
    (htresp : env.threadsResponse = .response tr)
    (ht2xx : is2xx tr.status = true)
    (htjson : tr.json = .obj tfields)
    (htid : pyTruthyOpt (tfields.lookup "id") = true)
    (hrresp : env.runsResponse = .response rr)
    (hr2xx : is2xx rr.status = true)
    (hrjson : rr.json = .obj rfields)
    (hrid : pyTruthyOpt (rfields.lookup "id") = true) :
    start_agent_run settings store env req =
      (let thread_id := (tfields.lookup "id").getD .null
       let treq := Request.threads (threadsRequestBody req.file_ids)
       let rreq := Request.runs thread_id (buildRunBody assistant_id req)
       let started_at :=
         match rfields.lookup "created_at" with
         | some c => if c.isIntOrFloat then c.toEpochInt else env.now
         | none => env.now
       let result : RunResult :=
         { run_id := (rfields.lookup "id").getD .null
           status := (rfields.lookup "status").getD (.str "queued")
           thread_id := thread_id
           started_at := started_at
           dashboard_url := (rfields.lookup "dashboard_url").getD .null
           assistant_id := (rfields.lookup "assistant_id").getD (.str assistant_id)
           requested_schema := req.response_schema
           metadata := req.metadata.getD [] }
       match store with
       | none => ⟨.ok result, none, [treq, rreq]⟩
       | some st =>
         if env.storeWriteFails then ⟨.crash "sqlite3.Error", some st, [treq, rreq]⟩
         else
           ⟨.ok result,
            some (log_run st
              ⟨result.run_id, thread_id, result.assistant_id, result.status,
               req.response_schema, req.metadata.getD [], started_at⟩),
            [treq, rreq]⟩) := by
  unfold start_agent_run
  simp only [build_headers, hkey, if_true, haid, haid2, htresp, htjson, ht2xx,
    htid, hrresp, hrjson, hr2xx, hrid]
  rfl

/-- Once the thread has been created with a truthy id, the outbound request
trace is exactly the threads post followed by the runs post with the built
run body, whatever the runs call then returns. -/
theorem start_agent_run_requests_after_thread (settings : Settings)
    (store : Option StoreState) (env : RunEnv) (req : AgentRunRequest)
    (assistant_id : String) (tr : HttpResponse) (tfields : JsonFields)
    (hkey : pyOptStrTruthy settings.openai_api_key = true)
    (haid : settings.openai_assistant_id = some assistant_id)
    (haid2 : (assistant_id = "") = False)
    (htresp : env.threadsResponse = .response tr)
    (ht2xx : is2xx tr.status = true)
    (htjson : tr.json = .obj tfields)
    (htid : pyTruthyOpt (tfields.lookup "id") = true) :
    (start_agent_run settings store env req).requests =
      [Request.threads (threadsRequestBody req.file_ids),
       Request.runs ((tfields.lookup "id").getD .null)
         (buildRunBody assistant_id req)] := by
  unfold start_agent_run
  simp only [build_headers, hkey, if_true, haid, haid2, htresp, htjson, ht2xx,
    htid, if_false]
  cases env.runsResponse with
  | requestError m => rfl
  | response rr =>
    by_cases h2 : is2xx rr.status = false
    · simp only [h2]
      rfl
    · simp only [h2, if_false]
      cases hj : rr.json <;> try rfl
      next rfields =>
        by_cases h3 : pyTruthyOpt (rfields.lookup "id") = false
        · simp only [h3]
          rfl
        · simp only [h3, if_false]
          cases store with
          | none => rfl
          | some st =>
            by_cases h4 : env.storeWriteFails = true
            · simp only [h4]
              rfl
            · simp only [h4, if_false]
              rfl

/-! ## C1: metadata-store write failure after a successful external call -/

/-- Environment where the files post succeeds but the SQLite write raises. -/
def failWriteFilesEnv : UploadEnv := ⟨.response ⟨200, "ok", okFilesJson⟩, 100, true⟩

/-- Environment where both posts succeed but the SQLite write raises. -/
def failWriteRunEnv : RunEnv := ⟨okThreadsResp, okRunsResp, 55, true⟩

/-- C1 counterexample: with the external API call already succeeded and a
store attached, a failing Metadata Store write escapes `upload_source` and
`start_agent_run` (the call sites have no try/except around the store write),
so no normalized result is returned. -/
theorem c1_counterexample :
    (upload_source goodSettings (some StoreState.empty) failWriteFilesEnv wFile
        none).result = .crash "sqlite3.Error" ∧
    (start_agent_run goodSettings (some StoreState.empty) failWriteRunEnv
        wReq).result = .crash "sqlite3.Error" :=
  ⟨rfl, rfl⟩

/-- C1 amended: when the external call has succeeded but the Metadata Store
write fails, the failure is NOT swallowed — it escapes to the caller, the
normalized result is withheld, and (the transaction having rolled back) the
store is left unchanged. -/
theorem c1_amended_store_failure_propagates :
    (∀ settings st env file provider r fields,
      pyOptStrTruthy settings.openai_api_key = true →
      env.filesResponse = .response r →
      is2xx r.status = true →
      r.json = .obj fields →
      pyTruthyOpt (fields.lookup "id") = true →
      env.storeWriteFails = true →
      (upload_source settings (some st) env file provider).result =
          .crash "sqlite3.Error" ∧
      (upload_source settings (some st) env file provider).store = some st) ∧
    (∀ settings st env req assistant_id tr rr tfields rfields,
      pyOptStrTruthy settings.openai_api_key = true →
      settings.openai_assistant_id = some assistant_id →
      (assistant_id = "") = False →
      env.threadsResponse = .response tr →
      is2xx tr.status = true →
      tr.json = .obj tfields →
      pyTruthyOpt (tfields.lookup "id") = true →
      env.runsResponse = .response rr →
      is2xx rr.status = true →
      rr.json = .obj rfields →
      pyTruthyOpt (rfields.lookup "id") = true →
      env.storeWriteFails = true →
      (start_agent_run settings (some st) env req).result =
          .crash "sqlite3.Error" ∧
      (start_agent_run settings (some st) env req).store = some st) := by
  constructor
  · intro settings st env file provider r fields hkey hresp h2xx hjson hid hw
    rw [upload_source_success_shape settings (some st) env file provider r
      fields hkey hresp h2xx hjson hid]
    simp [hw]
  · intro settings st env req assistant_id tr rr tfields rfields hkey haid
      haid2 htresp ht2xx htjson htid hrresp hr2xx hrjson hrid hw
    rw [start_agent_run_success_shape settings (some st) env req assistant_id
      tr rr tfields rfields hkey haid haid2 htresp ht2xx htjson htid hrresp
      hr2xx hrjson hrid]
    simp [hw]

/-- A one-row store used by the C1 witness. -/
def w1Store : StoreState :=
  ⟨[⟨1, ⟨.str "file_old", .str "old.csv", none, "text/csv", 9, 1⟩⟩], 2, [], 1⟩

/-- C1 witness: the amended claim at a concrete store and environments. -/
theorem c1_amended_store_failure_propagates_witness :
    ((upload_source goodSettings (some w1Store) failWriteFilesEnv wFile
        none).result = .crash "sqlite3.Error" ∧
     (upload_source goodSettings (some w1Store) failWriteFilesEnv wFile
        none).store = some w1Store) ∧
    ((start_agent_run goodSettings (some w1Store) failWriteRunEnv
        wReq).result = .crash "sqlite3.Error" ∧
     (start_agent_run goodSettings (some w1Store) failWriteRunEnv
        wReq).store = some w1Store) :=
  ⟨c1_amended_store_failure_propagates.1 goodSettings w1Store failWriteFilesEnv
      wFile none ⟨200, "ok", okFilesJson⟩
      (JsonFields.ofList [("id", .str "file_abc"), ("filename", .str "q1.csv")])
      (by decide) rfl (by decide) rfl (by decide) rfl,
   c1_amended_store_failure_propagates.2 goodSettings w1Store failWriteRunEnv
      wReq "asst_1" ⟨200, "", Json.objL [("id", .str "thread_1")]⟩
      ⟨200, "",
       Json.objL [("id", .str "run_1"), ("status", .str "queued"),
                  ("created_at", .num 1700000000)]⟩
      (JsonFields.ofList [("id", .str "thread_1")])
      (JsonFields.ofList [("id", .str "run_1"), ("status", .str "queued"),
                          ("created_at", .num 1700000000)])
      (by decide) rfl (by simp) rfl (by decide) rfl (by decide) rfl (by decide)
      rfl (by decide) rfl⟩

/-! ## C10: the store is untouched on every error path -/

/-- C10: every RuntimeError outcome (configuration, upstream status,
connectivity, protocol) leaves the Metadata Store exactly as it was — the
store write is only reached after the external calls and response
validation have all succeeded. -/
theorem c10_store_unchanged_on_error :
    (∀ settings store env file provider e,
      (upload_source settings store env file provider).result = .error e →
      (upload_source settings store env file provider).store = store) ∧
    (∀ settings store env req e,
      (start_agent_run settings store env req).result = .error e →
      (start_agent_run settings store env req).store = store) := by
  constructor
  · intro settings store env file provider e h
    unfold upload_source at h ⊢
    cases hbh : build_headers settings with
    | error e2 => simp only [hbh]
    | ok v =>
      simp only [hbh] at h ⊢
      cases hresp : env.filesResponse with
      | requestError m => simp only [hresp]
      | response r =>
        simp only [hresp] at h ⊢
        by_cases h2 : is2xx r.status = false
        · rw [if_pos h2]
        · rw [if_neg h2] at h ⊢
          cases hj : r.json with
          | null => simp only [hj] at h; exact PyOutcome.noConfusion h
          | bool b => simp only [hj] at h; exact PyOutcome.noConfusion h
          | num n => simp only [hj] at h; exact PyOutcome.noConfusion h
          | str s => simp only [hj] at h; exact PyOutcome.noConfusion h
          | arr elems => simp only [hj] at h; exact PyOutcome.noConfusion h
          | obj fields =>
            simp only [hj] at h ⊢
            by_cases h3 : pyTruthyOpt (fields.lookup "id") = false
            · rw [if_pos h3]
            · rw [if_neg h3] at h ⊢
              cases store with
              | none => rfl
              | some st =>
                by_cases h4 : env.storeWriteFails = true
                · simp [h4]
                · simp [h4] at h
  · intro settings store env req e h
    unfold start_agent_run at h ⊢
    cases hbh : build_headers settings with
    | error e2 => simp only [hbh]
    | ok v =>
      simp only [hbh] at h ⊢
      cases haid : settings.openai_assistant_id with
      | none => simp only [haid]
      | some assistant_id =>
        simp only [haid] at h ⊢
        by_cases ha2 : assistant_id = ""
        · rw [if_pos ha2]
        · rw [if_neg ha2] at h ⊢
          cases htresp : env.threadsResponse with
          | requestError m => simp only [htresp]
          | response tr =>
            simp only [htresp] at h ⊢
            by_cases ht2 : is2xx tr.status = false
            · rw [if_pos ht2]
            · rw [if_neg ht2] at h ⊢
              cases htj : tr.json with
              | null => simp only [htj] at h; exact PyOutcome.noConfusion h
              | bool b => simp only [htj] at h; exact PyOutcome.noConfusion h
              | num n => simp only [htj] at h; exact PyOutcome.noConfusion h
              | str s => simp only [htj] at h; exact PyOutcome.noConfusion h
              | arr elems => simp only [htj] at h; exact PyOutcome.noConfusion h
              | obj tfields =>
                simp only [htj] at h ⊢
                by_cases ht3 : pyTruthyOpt (tfields.lookup "id") = false
                · rw [if_pos ht3]
                · rw [if_neg ht3] at h ⊢
                  cases hrresp : env.runsResponse with
                  | requestError m => simp only [hrresp]
                  | response rr =>
                    simp only [hrresp] at h ⊢
                    by_cases hr2 : is2xx rr.status = false
                    · rw [if_pos hr2]
                    · rw [if_neg hr2] at h ⊢
                      cases hrj : rr.json with
                      | null => simp only [hrj] at h; exact PyOutcome.noConfusion h
                      | bool b => simp only [hrj] at h; exact PyOutcome.noConfusion h
                      | num n => simp only [hrj] at h; exact PyOutcome.noConfusion h
                      | str s => simp only [hrj] at h; exact PyOutcome.noConfusion h
                      | arr elems => simp only [hrj] at h; exact PyOutcome.noConfusion h
                      | obj rfields =>
                        simp only [hrj] at h ⊢
                        by_cases hr3 : pyTruthyOpt (rfields.lookup "id") = false
                        · rw [if_pos hr3]
                        · rw [if_neg hr3] at h ⊢
                          cases store with
                          | none => rfl
                          | some st =>
                            by_cases h4 : env.storeWriteFails = true
                            · simp [h4]
                            · simp [h4] at h

/-- C10 witness: the store is returned unchanged at concrete error inputs
(missing credential for the upload flow; non-2xx thread creation for the run
flow). -/
theorem c10_store_unchanged_on_error_witness :
    (upload_source noKeySettings (some w1Store) okFilesEnv wFile none).store =
      some w1Store ∧
    (start_agent_run goodSettings (some w1Store)
        ⟨.response ⟨500, "boom", Json.objL []⟩, okRunsResp, 55, false⟩
        wReq).store = some w1Store :=
  ⟨c10_store_unchanged_on_error.1 noKeySettings (some w1Store) okFilesEnv wFile
      none .apiKeyMissing (by decide),
   c10_store_unchanged_on_error.2 goodSettings (some w1Store)
      ⟨.response ⟨500, "boom", Json.objL []⟩, okRunsResp, 55, false⟩ wReq
      (.agentsApiStatus 500 (take500 "boom")) (by decide)⟩

/-! ## C3: non-2xx upstream responses -/

/-- C3: a non-2xx response from the Files endpoint, or from the Runs endpoint
once the thread was created, yields a RuntimeError whose message embeds the
upstream status code and exactly the first ≤ 500 code points of the upstream
body. -/
theorem c3_upstream_status_errors :
    (∀ settings store env file provider r,
      pyOptStrTruthy settings.openai_api_key = true →
      env.filesResponse = .response r →
      is2xx r.status = false →
      (upload_source settings store env file provider).result =
        .error (.filesApiStatus r.status (take500 r.body)) ∧
      (AgentError.filesApiStatus r.status (take500 r.body)).message =
        "OpenAI Files API error (" ++ toString r.status ++ "): " ++
          take500 r.body ∧
      (take500 r.body).length ≤ 500 ∧
      (take500 r.body).data = r.body.data.take 500) ∧
    (∀ settings store env req assistant_id tr tfields rr,
      pyOptStrTruthy settings.openai_api_key = true →
      settings.openai_assistant_id = some assistant_id →
      (assistant_id = "") = False →
      env.threadsResponse = .response tr →
      is2xx tr.status = true →
      tr.json = .obj tfields →
      pyTruthyOpt (tfields.lookup "id") = true →
      env.runsResponse = .response rr →
      is2xx rr.status = false →
      (start_agent_run settings store env req).result =
        .error (.agentsApiStatus rr.status (take500 rr.body)) ∧
      (AgentError.agentsApiStatus rr.status (take500 rr.body)).message =
        "OpenAI Agents API error (" ++ toString rr.status ++ "): " ++
          take500 rr.body ∧
      (take500 rr.body).length ≤ 500 ∧
      (take500 rr.body).data = rr.body.data.take 500) := by
  constructor
  · intro settings store env file provider r hkey hresp h2xx
    refine ⟨?_, rfl, ?_, rfl⟩
    · unfold upload_source
      simp only [build_headers, hkey, if_true, hresp, h2xx]
    · show (r.body.data.take 500).length ≤ 500
      rw [List.length_take]
      exact min_le_left _ _
  · intro settings store env req assistant_id tr tfields rr hkey haid haid2
      htresp ht2xx htjson htid hrresp hr2xx
    refine ⟨?_, rfl, ?_, rfl⟩
    · unfold start_agent_run
      simp only [build_headers, hkey, if_true, haid, haid2, htresp, htjson,
        ht2xx, htid, hrresp, hr2xx]
      rfl
    · show (rr.body.data.take 500).length ≤ 500
      rw [List.length_take]
      exact min_le_left _ _

/-- C3 witness: a 404 from the files post and a 500 from the runs post. -/
theorem c3_upstream_status_errors_witness :
    (upload_source goodSettings none
        ⟨.response ⟨404, "not found", Json.objL []⟩, 0, false⟩ wFile
        none).result = .error (.filesApiStatus 404 (take500 "not found")) ∧
    (start_agent_run goodSettings none
        ⟨okThreadsResp, .response ⟨500, "boom", Json.objL []⟩, 55, false⟩
        wReq).result = .error (.agentsApiStatus 500 (take500 "boom")) :=
  ⟨(c3_upstream_status_errors.1 goodSettings none
      ⟨.response ⟨404, "not found", Json.objL []⟩, 0, false⟩ wFile none
      ⟨404, "not found", Json.objL []⟩ (by decide) rfl (by decide)).1,
   (c3_upstream_status_errors.2 goodSettings none
      ⟨okThreadsResp, .response ⟨500, "boom", Json.objL []⟩, 55, false⟩ wReq
      "asst_1" ⟨200, "", Json.objL [("id", .str "thread_1")]⟩
      (JsonFields.ofList [("id", .str "thread_1")])
      ⟨500, "boom", Json.objL []⟩
      (by decide) rfl (by simp) rfl (by decide) rfl (by decide) rfl
      (by decide)).1⟩

/-! ## C4: missing `id` in a 2xx response -/

/-- A truthy optional JSON value stays truthy after the `.getD .null`
defaulting the service applies. -/
theorem pyTruthy_getD_of_truthyOpt (o : Option Json)
    (h : pyTruthyOpt o = true) : (o.getD .null).pyTruthy = true := by
  cases o with
  | none => exact absurd h (by simp [pyTruthyOpt])
  | some j => exact h

/-- A truthy JSON value is not `null`. -/
theorem ne_null_of_pyTruthy (j : Json) (h : j.pyTruthy = true) :
    j ≠ .null := by
  intro he
  subst he
  simp [Json.pyTruthy] at h

/-- A Bool that is not `false` is `true`. -/
theorem bool_eq_true_of_ne_false {b : Bool} (h : ¬b = false) : b = true := by
  cases b with
  | false => exact absurd rfl h
  | true => rfl

/-- C4 counterexample: a 2xx Files response whose body is valid JSON but not
an object (the empty array, which certainly lacks an `id` field) makes
`upload_source` crash with an `AttributeError` from `payload.get("id")`
instead of failing with the ProtocolError RuntimeError. -/
theorem c4_counterexample :
    (upload_source goodSettings none
        ⟨.response ⟨200, "[]", Json.arrL []⟩, 0, false⟩ wFile none).result =
      .crash "AttributeError" := rfl

/-- C4 amended: for a 2xx response whose JSON body is an object without a
truthy `id`, each endpoint yields its ProtocolError RuntimeError (never a
crash), and a returned result never carries a falsy — in particular null —
file, thread or run id.  (For a 2xx body that is valid JSON but not an
object, the code instead crashes with `AttributeError`: see the
counterexample.) -/
theorem c4_missing_id_protocol_errors :
    (∀ settings store env file provider r fields,
      pyOptStrTruthy settings.openai_api_key = true →
      env.filesResponse = .response r →
      is2xx r.status = true →
      r.json = .obj fields →
      pyTruthyOpt (fields.lookup "id") = false →
      (upload_source settings store env file provider).result =
        .error .filesMissingId) ∧
    (∀ settings store env req assistant_id tr tfields,
      pyOptStrTruthy settings.openai_api_key = true →
      settings.openai_assistant_id = some assistant_id →
      (assistant_id = "") = False →
      env.threadsResponse = .response tr →
      is2xx tr.status = true →
      tr.json = .obj tfields →
      pyTruthyOpt (tfields.lookup "id") = false →
      (start_agent_run settings store env req).result =
        .error .threadsMissingId) ∧
    (∀ settings store env req assistant_id tr tfields rr rfields,
      pyOptStrTruthy settings.openai_api_key = true →
      settings.openai_assistant_id = some assistant_id →
      (assistant_id = "") = False →
      env.threadsResponse = .response tr →
      is2xx tr.status = true →
      tr.json = .obj tfields →
      pyTruthyOpt (tfields.lookup "id") = true →
      env.runsResponse = .response rr →
      is2xx rr.status = true →
      rr.json = .obj rfields →
      pyTruthyOpt (rfields.lookup "id") = false →
      (start_agent_run settings store env req).result =
        .error .runsMissingId) ∧
    (∀ settings store env file provider res,
      (upload_source settings store env file provider).result = .ok res →
      res.file_id.pyTruthy = true ∧ res.file_id ≠ .null) ∧
    (∀ settings store env req res,
      (start_agent_run settings store env req).result = .ok res →
      res.run_id.pyTruthy = true ∧ res.run_id ≠ .null ∧
      res.thread_id.pyTruthy = true ∧ res.thread_id ≠ .null) := by
  refine ⟨?_, ?_, ?_, ?_, ?_⟩
  · intro settings store env file provider r fields hkey hresp h2xx hjson hid
    unfold upload_source
    simp only [build_headers, hkey, if_true, hresp, h2xx, hjson, hid]
    rfl
  · intro settings store env req assistant_id tr tfields hkey haid haid2
      htresp ht2xx htjson htid
    unfold start_agent_run
    simp only [build_headers, hkey, if_true, haid, haid2, htresp, ht2xx,
      htjson, htid]
    rfl
  · intro settings store env req assistant_id tr tfields rr rfields hkey haid
      haid2 htresp ht2xx htjson htid hrresp hr2xx hrjson hrid
    unfold start_agent_run
    simp only [build_headers, hkey, if_true, haid, haid2, htresp, ht2xx,
      htjson, htid, hrresp, hr2xx, hrjson, hrid]
    rfl
  · intro settings store env file provider res h
    unfold upload_source at h
    cases hbh : build_headers settings with
    | error e2 => simp only [hbh] at h; exact PyOutcome.noConfusion h
    | ok v =>
      simp only [hbh] at h
      cases hresp : env.filesResponse with
      | requestError m => simp only [hresp] at h; exact PyOutcome.noConfusion h
      | response r =>
        simp only [hresp] at h
        by_cases h2 : is2xx r.status = false
        · rw [if_pos h2] at h; exact PyOutcome.noConfusion h
        · rw [if_neg h2] at h
          cases hj : r.json with
          | null => simp only [hj] at h; exact PyOutcome.noConfusion h
          | bool b => simp only [hj] at h; exact PyOutcome.noConfusion h
          | num n => simp only [hj] at h; exact PyOutcome.noConfusion h
          | str s => simp only [hj] at h; exact PyOutcome.noConfusion h
          | arr elems => simp only [hj] at h; exact PyOutcome.noConfusion h
          | obj fields =>
            simp only [hj] at h
            by_cases h3 : pyTruthyOpt (fields.lookup "id") = false
            · rw [if_pos h3] at h; exact PyOutcome.noConfusion h
            · rw [if_neg h3] at h
              have h3t := bool_eq_true_of_ne_false h3
              have htr := pyTruthy_getD_of_truthyOpt _ h3t
              cases store with
              | none =>
                injection h with hres
                subst hres
                exact ⟨htr, ne_null_of_pyTruthy _ htr⟩
              | some st =>
                by_cases h4 : env.storeWriteFails = true
                · simp [h4] at h
                · simp only [eq_false h4, if_false] at h
                  injection h with hres
                  subst hres
                  exact ⟨htr, ne_null_of_pyTruthy _ htr⟩
  · intro settings store env req res h
    unfold start_agent_run at h
    cases hbh : build_headers settings with
    | error e2 => simp only [hbh] at h; exact PyOutcome.noConfusion h
    | ok v =>
      simp only [hbh] at h
      cases haid : settings.openai_assistant_id with
      | none => simp only [haid] at h; exact PyOutcome.noConfusion h
      | some assistant_id =>
        simp only [haid] at h
        by_cases ha2 : assistant_id = ""
        · rw [if_pos ha2] at h; exact PyOutcome.noConfusion h
        · rw [if_neg ha2] at h
          cases htresp : env.threadsResponse with
          | requestError m =>
            simp only [htresp] at h; exact PyOutcome.noConfusion h
          | response tr =>
            simp only [htresp] at h
            by_cases ht2 : is2xx tr.status = false
            · rw [if_pos ht2] at h; exact PyOutcome.noConfusion h
            · rw [if_neg ht2] at h
              cases htj : tr.json with
              | null => simp only [htj] at h; exact PyOutcome.noConfusion h
              | bool b => simp only [htj] at h; exact PyOutcome.noConfusion h
              | num n => simp only [htj] at h; exact PyOutcome.noConfusion h
              | str s => simp only [htj] at h; exact PyOutcome.noConfusion h
              | arr elems => simp only [htj] at h; exact PyOutcome.noConfusion h
              | obj tfields =>
                simp only [htj] at h
                by_cases ht3 : pyTruthyOpt (tfields.lookup "id") = false
                · rw [if_pos ht3] at h; exact PyOutcome.noConfusion h
                · rw [if_neg ht3] at h
                  have ht3t := bool_eq_true_of_ne_false ht3
                  have httr := pyTruthy_getD_of_truthyOpt _ ht3t
                  cases hrresp : env.runsResponse with
                  | requestError m =>
                    simp only [hrresp] at h; exact PyOutcome.noConfusion h
                  | response rr =>
                    simp only [hrresp] at h
                    by_cases hr2 : is2xx rr.status = false
                    · rw [if_pos hr2] at h; exact PyOutcome.noConfusion h
                    · rw [if_neg hr2] at h
                      cases hrj : rr.json with
                      | null =>
                        simp only [hrj] at h; exact PyOutcome.noConfusion h
                      | bool b =>
                        simp only [hrj] at h; exact PyOutcome.noConfusion h
                      | num n =>
                        simp only [hrj] at h; exact PyOutcome.noConfusion h
                      | str s =>
                        simp only [hrj] at h; exact PyOutcome.noConfusion h
                      | arr elems =>
                        simp only [hrj] at h; exact PyOutcome.noConfusion h
                      | obj rfields =>
                        simp only [hrj] at h
                        by_cases hr3 : pyTruthyOpt (rfields.lookup "id") = false
                        · rw [if_pos hr3] at h; exact PyOutcome.noConfusion h
                        · rw [if_neg hr3] at h
                          have hr3t := bool_eq_true_of_ne_false hr3
                          have hrtr := pyTruthy_getD_of_truthyOpt _ hr3t
                          cases store with
                          | none =>
                            injection h with hres
                            subst hres
                            exact ⟨hrtr, ne_null_of_pyTruthy _ hrtr, httr,
                              ne_null_of_pyTruthy _ httr⟩
                          | some st =>
                            by_cases h4 : env.storeWriteFails = true
                            · simp [h4] at h
                            · simp only [eq_false h4, if_false] at h
                              injection h with hres
                              subst hres
                              exact ⟨hrtr, ne_null_of_pyTruthy _ hrtr, httr,
                                ne_null_of_pyTruthy _ httr⟩

/-- C4 witness: a 2xx object body without `id` yields the ProtocolError at a
concrete input, and the concrete successful upload result carries a truthy,
non-null file id. -/
theorem c4_missing_id_protocol_errors_witness :
    (upload_source goodSettings none
        ⟨.response ⟨200, "{}", Json.objL [("object", .str "file")]⟩, 0, false⟩
        wFile none).result = .error .filesMissingId ∧
    ((Json.str "file_abc").pyTruthy = true ∧ Json.str "file_abc" ≠ .null) :=
  ⟨c4_missing_id_protocol_errors.1 goodSettings none
      ⟨.response ⟨200, "{}", Json.objL [("object", .str "file")]⟩, 0, false⟩
      wFile none ⟨200, "{}", Json.objL [("object", .str "file")]⟩
      (JsonFields.ofList [("object", .str "file")])
      (by decide) rfl (by decide) rfl (by decide),
   c4_missing_id_protocol_errors.2.2.2.1 goodSettings none okFilesEnv wFile
      none ⟨.str "file_abc", .str "q1.csv", none, "text/csv", 4, 100⟩
      (by decide)⟩

/-! ## C5 and C6: the run-creation body -/

/-- C5: the body posted to the Runs endpoint carries `response_format`
exactly per the registry: profile `"income_cashflow_expense"` attaches the
fixed three-section schema payload, while a profile absent from the registry
(in particular `"default"`) attaches no `response_format` key at all. -/
theorem c5_response_format_registry :
    (∀ settings store env req assistant_id tr tfields,
      pyOptStrTruthy settings.openai_api_key = true →
      settings.openai_assistant_id = some assistant_id →
      (assistant_id = "") = False →
      env.threadsResponse = .response tr →
      is2xx tr.status = true →
      tr.json = .obj tfields →
      pyTruthyOpt (tfields.lookup "id") = true →
      (start_agent_run settings store env req).requests =
        [Request.threads (threadsRequestBody req.file_ids),
         Request.runs ((tfields.lookup "id").getD .null)
           (buildRunBody assistant_id req)]) ∧
    (∀ assistant_id req, req.response_schema = "income_cashflow_expense" →
      (buildRunBody assistant_id req).lookup "response_format" =
        some (Json.objL
          [("type", .str "json_schema"),
           ("json_schema", FINANCIAL_REPORT_SCHEMA),
           ("strict", .bool true)])) ∧
    (∀ assistant_id req,
      SCHEMA_PROFILES.lookup req.response_schema = none →
      (buildRunBody assistant_id req).lookup "response_format" = none) ∧
    SCHEMA_PROFILES.lookup "default" = none := by
  refine ⟨start_agent_run_requests_after_thread, ?_, ?_, by decide⟩
  · intro assistant_id req hs
    unfold buildRunBody
    rw [hs]
    by_cases hm : pyOptDictTruthy req.metadata = true <;>
      by_cases hi : req.instructions.trim = "" <;>
        simp [hm, hi, get_response_format, SCHEMA_PROFILES, List.lookup,
          Json.objL, JsonFields.ofList, Json.pyTruthy, JsonFields.isEmpty]
  · intro assistant_id req hn
    unfold buildRunBody
    simp only [get_response_format, hn]
    by_cases hm : pyOptDictTruthy req.metadata = true <;>
      by_cases hi : req.instructions.trim = "" <;>
        simp [hm, hi, List.lookup]

/-- A run request with the out-of-registry `"default"` profile. -/
def wReqDefault : AgentRunRequest := ⟨["file_abc"], "  hi  ", "default", none⟩

/-- C5 witness: concrete request traces and body lookups for both a
registry profile and the `"default"` profile. -/
theorem c5_response_format_registry_witness :
    (start_agent_run goodSettings none okRunEnv wReq).requests =
      [Request.threads (threadsRequestBody wReq.file_ids),
       Request.runs
         (((JsonFields.ofList [("id", .str "thread_1")]).lookup "id").getD
           .null)
         (buildRunBody "asst_1" wReq)] ∧
    (buildRunBody "asst_1" wReq).lookup "response_format" =
      some (Json.objL
        [("type", .str "json_schema"),
         ("json_schema", FINANCIAL_REPORT_SCHEMA),
         ("strict", .bool true)]) ∧
    (buildRunBody "asst_1" wReqDefault).lookup "response_format" = none :=
  ⟨c5_response_format_registry.1 goodSettings none okRunEnv wReq "asst_1"
      ⟨200, "", Json.objL [("id", .str "thread_1")]⟩
      (JsonFields.ofList [("id", .str "thread_1")])
      (by decide) rfl (by simp) rfl (by decide) rfl (by decide),
   c5_response_format_registry.2.1 "asst_1" wReq rfl,
   c5_response_format_registry.2.2.1 "asst_1" wReqDefault (by decide)⟩

/-- C6: the `instructions` field of the run-creation body is the caller's
stripped instructions when non-empty, else the fixed default instruction
string. -/
theorem c6_instructions_trim_or_default :
    (∀ settings store env req assistant_id tr tfields,
      pyOptStrTruthy settings.openai_api_key = true →
      settings.openai_assistant_id = some assistant_id →
      (assistant_id = "") = False →
      env.threadsResponse = .response tr →
      is2xx tr.status = true →
      tr.json = .obj tfields →
      pyTruthyOpt (tfields.lookup "id") = true →
      (start_agent_run settings store env req).requests =
        [Request.threads (threadsRequestBody req.file_ids),
         Request.runs ((tfields.lookup "id").getD .null)
           (buildRunBody assistant_id req)]) ∧
    (∀ assistant_id req,
      (buildRunBody assistant_id req).lookup "instructions" =
        some (.str (if req.instructions.trim = "" then defaultRunInstructions
                    else req.instructions.trim))) := by
  refine ⟨start_agent_run_requests_after_thread, ?_⟩
  intro assistant_id req
  unfold buildRunBody
  by_cases hm : pyOptDictTruthy req.metadata = true <;>
    by_cases hi : req.instructions.trim = "" <;>
      cases hrf : get_response_format req.response_schema <;>
        simp [hm, hi, hrf, List.lookup_append, List.lookup,
          apply_ite (List.lookup "instructions")]

/-- C6 witness: the concrete request trace through `start_agent_run` (all
hypotheses discharged), plus the body's `instructions` entry at two concrete
requests. -/
theorem c6_instructions_trim_or_default_witness :
    (start_agent_run goodSettings none okRunEnv wReq).requests =
      [Request.threads (threadsRequestBody wReq.file_ids),
       Request.runs
         (((JsonFields.ofList [("id", .str "thread_1")]).lookup "id").getD
           .null)
         (buildRunBody "asst_1" wReq)] ∧
    (buildRunBody "asst_1" wReq).lookup "instructions" =
      some (.str (if wReq.instructions.trim = "" then defaultRunInstructions
                  else wReq.instructions.trim)) ∧
    (buildRunBody "asst_1" wReqDefault).lookup "instructions" =
      some (.str (if wReqDefault.instructions.trim = ""
                  then defaultRunInstructions
                  else wReqDefault.instructions.trim)) :=
  ⟨c6_instructions_trim_or_default.1 goodSettings none okRunEnv wReq "asst_1"
      ⟨200, "", Json.objL [("id", .str "thread_1")]⟩
      (JsonFields.ofList [("id", .str "thread_1")])
      (by decide) rfl (by simp) rfl (by decide) rfl (by decide),
   c6_instructions_trim_or_default.2 "asst_1" wReq,
   c6_instructions_trim_or_default.2 "asst_1" wReqDefault⟩

/-! ## C7: `started_at` derivation -/

/-- C7: on a successful run creation, `started_at` is the epoch value of the
response's `created_at` field when that field is present and passes the
code's numeric check, and the server's current UTC time otherwise. -/
theorem c7_started_at_semantics (settings : Settings)
    (store : Option StoreState) (env : RunEnv) (req : AgentRunRequest)
    (assistant_id : String) (tr rr : HttpResponse)
    (tfields rfields : JsonFields)
    (hkey : pyOptStrTruthy settings.openai_api_key = true)
    (haid : settings.openai_assistant_id = some assistant_id)
    (haid2 : (assistant_id = "") = False)
    (htresp : env.threadsResponse = .response tr)
    (ht2xx : is2xx tr.status = true)
    (htjson : tr.json = .obj tfields)
    (htid : pyTruthyOpt (tfields.lookup "id") = true)
    (hrresp : env.runsResponse = .response rr)
    (hr2xx : is2xx rr.status = true)
    (hrjson : rr.json = .obj rfields)
    (hrid : pyTruthyOpt (rfields.lookup "id") = true)
    (hwrite : env.storeWriteFails = false) :
    ∃ res, (start_agent_run settings store env req).result = .ok res ∧
      res.started_at =
        (match rfields.lookup "created_at" with
         | some c => if c.isIntOrFloat then c.toEpochInt else env.now
         | none => env.now) := by
  rw [start_agent_run_success_shape settings store env req assistant_id tr rr
    tfields rfields hkey haid haid2 htresp ht2xx htjson htid hrresp hr2xx
    hrjson hrid]
  cases store with
  | none => exact ⟨_, rfl, rfl⟩
  | some st =>
    simp only [hwrite]
    exact ⟨_, rfl, rfl⟩

/-- C7 witness: a numeric `created_at` of 1700000000 becomes `started_at`,
and a response without `created_at` falls back to the clock value 55. -/
theorem c7_started_at_semantics_witness :
    (∃ res, (start_agent_run goodSettings none okRunEnv wReq).result =
        .ok res ∧ res.started_at = 1700000000) ∧
    (∃ res, (start_agent_run goodSettings none
        ⟨okThreadsResp, .response ⟨200, "", Json.objL [("id", .str "run_1")]⟩,
         55, false⟩ wReq).result = .ok res ∧ res.started_at = 55) := by
  constructor
  · obtain ⟨res, h1, h2⟩ := c7_started_at_semantics goodSettings none okRunEnv
      wReq "asst_1" ⟨200, "", Json.objL [("id", .str "thread_1")]⟩
      ⟨200, "",
       Json.objL [("id", .str "run_1"), ("status", .str "queued"),
                  ("created_at", .num 1700000000)]⟩
      (JsonFields.ofList [("id", .str "thread_1")])
      (JsonFields.ofList [("id", .str "run_1"), ("status", .str "queued"),
                          ("created_at", .num 1700000000)])
      (by decide) rfl (by simp) rfl (by decide) rfl (by decide) rfl
      (by decide) rfl (by decide) rfl
    exact ⟨res, h1, h2.trans (by decide)⟩
  · obtain ⟨res, h1, h2⟩ := c7_started_at_semantics goodSettings none
      ⟨okThreadsResp, .response ⟨200, "", Json.objL [("id", .str "run_1")]⟩,
       55, false⟩
      wReq "asst_1" ⟨200, "", Json.objL [("id", .str "thread_1")]⟩
      ⟨200, "", Json.objL [("id", .str "run_1")]⟩
      (JsonFields.ofList [("id", .str "thread_1")])
      (JsonFields.ofList [("id", .str "run_1")])
      (by decide) rfl (by simp) rfl (by decide) rfl (by decide) rfl
      (by decide) rfl (by decide) rfl
    exact ⟨res, h1, h2.trans (by decide)⟩
